import Mathlib

/-!
Verification of the discord-price-tracker repository's alert-deduplication
engine, price-check orchestrator, location-context management and product
store, against its natural-language specification.

Conventions of the shallow embedding:
* Money amounts (prices, thresholds) are modelled as exact rationals `ℚ`;
  the Python source stores them as floats, and every comparison the claims
  exercise (`>`, `≤`, `|·| > 0.01`) agrees between the float and rational
  readings at the claims' inputs.
* Timestamps are modelled as integer epoch seconds `ℤ`; the Python source
  stores ISO strings and compares `timedelta.total_seconds()` against
  `24 * 3600`.
* SQLite tables are modelled as Lean lists of row structures, in rowid
  (insertion) order; `INSERT OR REPLACE` under a UNIQUE constraint deletes
  the conflicting row and appends the fresh one, `INSERT OR IGNORE` is a
  no-op when the constrained column already occurs.
* Fallible calls return `Except PyError α`; a Python call that supplies
  more positional arguments than the callee's signature accepts raises
  `TypeError` before the callee's body runs, and is embedded as
  `Except.error PyError.typeError`.
-/

namespace PriceTracker

/-- A Python runtime error crossing a call boundary.  `typeError` stands for
`TypeError` (in particular: calling a function with more positional
arguments than its signature declares). -/
inductive PyError where
  | typeError
  deriving Repr, DecidableEq

/-- One row of the `alert_states` table for a fixed
(user, product, store key, alert_type) tuple: `database.py` lines 145-157.
`last_alert_at` is in epoch seconds. -/
structure AlertState where
  last_alert_price : ℚ
  last_alert_at : ℤ
  deriving Repr, DecidableEq

/-- Embedding of `Database.should_send_alert` (`database.py` lines 417-452), specialised
to one (user, product, store key, alert_type) tuple: the SQL row lookup,
insert and delete touch only that tuple's row, so the state is the tuple's
`Option AlertState`.  Returns the decision (`true` = send) and the tuple's
row afterwards: when `current_price > threshold` the row is deleted via
`_reset_alert_state` (`database.py` lines 474-482) and `False` is returned;
otherwise the function only reads.  The `else` ladder: no row → `True`;
`abs (current_price - last_alert_price) > 0.01` → `True`;
elapsed seconds `> 24 * 3600` → `True`; otherwise `False`. -/
def should_send_alert (st : Option AlertState) (current_price threshold : ℚ)
    (now : ℤ) : Bool × Option AlertState :=
  if current_price > threshold then
    (false, none)
  else
    match st with
    | none => (true, none)
    | some row =>
      if |current_price - row.last_alert_price| > 1 / 100 then
        (true, st)
      else if now - row.last_alert_at > 24 * 3600 then
        (true, st)
      else
        (false, st)

/-- C1: the alert decision behaves as the spec's state machine, case by
case.  `should_send_alert` returns "do not send" and deletes the row when
the price is above threshold; sends when there is no row, when the price
moved by more than 0.01, or when the price is unchanged and more than 24
hours have elapsed; and suppresses (leaving the row in place) otherwise. -/
theorem C1_alert_decision_state_machine (st : Option AlertState)
    (p T : ℚ) (now : ℤ) :
    (p > T → should_send_alert st p T now = (false, none)) ∧
    (p ≤ T → st = none → should_send_alert st p T now = (true, none)) ∧
    (∀ row, p ≤ T → st = some row →
      |p - row.last_alert_price| > 1 / 100 →
      should_send_alert st p T now = (true, some row)) ∧
    (∀ row, p ≤ T → st = some row →
      |p - row.last_alert_price| ≤ 1 / 100 →
      now - row.last_alert_at > 24 * 3600 →
      should_send_alert st p T now = (true, some row)) ∧
    (∀ row, p ≤ T → st = some row →
      |p - row.last_alert_price| ≤ 1 / 100 →
      now - row.last_alert_at ≤ 24 * 3600 →
      should_send_alert st p T now = (false, some row)) := by
  refine ⟨fun h => ?_, fun h h0 => ?_, fun row h h0 hΔ => ?_,
    fun row h h0 hΔ ht => ?_, fun row h h0 hΔ ht => ?_⟩
  · simp only [should_send_alert, if_pos h]
  · subst h0; simp only [should_send_alert, if_neg (not_lt.mpr h)]
  · subst h0
    simp only [should_send_alert, if_neg (not_lt.mpr h), if_pos hΔ]
  · subst h0
    simp only [should_send_alert, if_neg (not_lt.mpr h),
      if_neg (not_lt.mpr hΔ), if_pos ht]
  · subst h0
    simp only [should_send_alert, if_neg (not_lt.mpr h),
      if_neg (not_lt.mpr hΔ), if_neg (not_lt.mpr ht)]

/-- Witness for C1: instantiating the state machine at concrete inputs.
With no row and price 5 ≤ threshold 10 the decision is SEND. -/
theorem C1_alert_decision_state_machine_witness :
    should_send_alert none 5 10 0 = (true, none) :=
  (C1_alert_decision_state_machine none 5 10 0).2.1 (by norm_num) rfl

/-- C5: with a last alert at price 10.00 (time 0) and cooldown not elapsed
(now = 3600 s, threshold 10), a new price of 9.99 (delta exactly 0.01) is
SUPPRESSed while 9.98 (delta 0.02) is SENT: the price-change comparison is
strictly greater than 0.01. -/
theorem C5_price_change_strictly_greater :
    (should_send_alert (some ⟨10, 0⟩) (9.99 : ℚ) 10 3600).1 = false ∧
    (should_send_alert (some ⟨10, 0⟩) (9.98 : ℚ) 10 3600).1 = true := by
  constructor <;> norm_num [should_send_alert, abs]

/-! ## Product store: `Database.create_product` (`database.py` lines 231-249) -/

/-- One row of the `products` table (`database.py` lines 77-85).  The `url`
column carries a UNIQUE constraint. -/
structure ProductRow where
  id : ℕ
  url : String
  name : Option String
  site : String
  deriving Repr, DecidableEq

/-- The `products` table: rows in rowid order plus the next AUTOINCREMENT
id. -/
structure ProductsTable where
  rows : List ProductRow
  next_id : ℕ
  deriving Repr, DecidableEq

/-- Embedding of `Database.create_product` (`database.py` lines 231-249): an
`INSERT OR IGNORE` on the UNIQUE `url` column.  When no row with the url
exists, the insert succeeds (`cursor.rowcount > 0`) and `lastrowid` — the
fresh AUTOINCREMENT id — is returned; otherwise the insert is ignored and
the existing row's id is selected by url. -/
def create_product (t : ProductsTable) (url : String) (name : Option String)
    (site : String) : ℕ × ProductsTable :=
  match t.rows.find? (fun r => r.url == url) with
  | some r => (r.id, t)
  | none =>
    (t.next_id, ⟨t.rows ++ [⟨t.next_id, url, name, site⟩], t.next_id + 1⟩)

/-- C10: `create_product` is idempotent per URL — a second call with the
same URL (and any name/site) changes nothing and returns the first call's
id, so the originally stored name and site survive. -/
theorem C10_create_product_idempotent (t : ProductsTable) (url : String)
    (n₁ n₂ : Option String) (s₁ s₂ : String) :
    create_product (create_product t url n₁ s₁).2 url n₂ s₂ =
      ((create_product t url n₁ s₁).1, (create_product t url n₁ s₁).2) := by
  unfold create_product
  rcases hf : t.rows.find? (fun r => r.url == url) with _ | r
  · simp [List.find?_append, hf]
  · simp [hf]

/-! ## ZIP-code location contexts (`database.py` lines 503-590) -/

/-- One row of the `user_zip_codes` table (`database.py` lines 160-171) for
a fixed user; `(user_id, zip_code)` carries a UNIQUE constraint. -/
structure ZipRow where
  zip_code : String
  is_primary : Bool
  label : String
  deriving Repr, DecidableEq

/-- A user's ZIP-code state: the user's `user_zip_codes` rows in rowid
(creation) order, plus the `users.zip_code` mirror column that
`add_user_zip_code` and `set_primary_zip_code` keep in sync. -/
structure ZipState where
  rows : List ZipRow
  user_zip : String
  deriving Repr, DecidableEq

/-- Number of rows flagged primary in a user's ZIP set. -/
def primary_count (st : ZipState) : ℕ :=
  (st.rows.filter (fun r => r.is_primary)).length

/-- Embedding of `Database.add_user_zip_code` (`database.py` lines 503-524).  When
`is_primary` is set, first `UPDATE user_zip_codes SET is_primary = 0` for
the user and mirror the zip into `users.zip_code`; then
`INSERT OR REPLACE` the (user, zip) row — under the UNIQUE constraint this
deletes any row with the same zip and appends the fresh row, whose label
defaults to `"ZIP " ++ zip`. -/
def add_user_zip_code (st : ZipState) (zip : String) (label : Option String)
    (is_primary : Bool) : ZipState :=
  let st' : ZipState :=
    if is_primary then
      ⟨st.rows.map (fun r => { r with is_primary := false }), zip⟩
    else st
  ⟨st'.rows.filter (fun r => r.zip_code ≠ zip) ++
      [⟨zip, is_primary, label.getD ("ZIP " ++ zip)⟩],
    st'.user_zip⟩

/-- Embedding of `Database.remove_user_zip_code` (`database.py` lines 538-558): refuses
(`False`) when the zip is absent or flagged primary; otherwise deletes the
row. -/
def remove_user_zip_code (st : ZipState) (zip : String) : ZipState × Bool :=
  match st.rows.find? (fun r => r.zip_code == zip) with
  | none => (st, false)
  | some row =>
    if row.is_primary then (st, false)
    else (⟨st.rows.filter (fun r => r.zip_code ≠ zip), st.user_zip⟩, true)

/-- Embedding of `Database.set_primary_zip_code` (`database.py` lines 560-590): `False`
when the zip is absent; otherwise zero every `is_primary`, set it on the
rows matching the zip, and mirror the zip into `users.zip_code` — the two
UPDATEs compose to `is_primary := (zip_code == zip)`. -/
def set_primary_zip_code (st : ZipState) (zip : String) : ZipState × Bool :=
  match st.rows.find? (fun r => r.zip_code == zip) with
  | none => (st, false)
  | some _ =>
    (⟨st.rows.map (fun r => { r with is_primary := r.zip_code == zip }), zip⟩,
      true)

/-- Counterexample to C4: starting from the invariant state with the single
primary row `11111`, re-adding ZIP `11111` with `is_primary = false` makes
`INSERT OR REPLACE` overwrite the primary row with a non-primary one,
leaving zero primary contexts — not exactly one. -/
theorem C4_counterexample_readd_primary_demotes :
    primary_count
        (add_user_zip_code ⟨[⟨"11111", true, "Primary"⟩], "11111"⟩
          "11111" none false) = 0 := by
  decide

/-- Deleting the rows that match a zip does not change the primary rows,
provided no primary row carries that zip. -/
lemma filter_primary_erase_zip (l : List ZipRow) (z : String)
    (h : ∀ r ∈ l, r.is_primary = true → r.zip_code ≠ z) :
    (l.filter (fun r => r.zip_code ≠ z)).filter (fun r => r.is_primary) =
      l.filter (fun r => r.is_primary) := by
  rw [List.filter_filter]
  refine List.filter_congr (fun r hr => ?_)
  cases hpr : r.is_primary
  · simp
  · simp [h r hr hpr]

/-- A demoted row list contains no primary rows. -/
lemma filter_primary_map_demote (l : List ZipRow) (p : ZipRow → Bool) :
    ((l.map (fun r => { r with is_primary := false })).filter p).filter
        (fun r => r.is_primary) = [] := by
  refine List.filter_eq_nil_iff.mpr (fun a ha => ?_)
  rcases List.mem_map.mp (List.mem_of_mem_filter ha) with ⟨r, -, rfl⟩
  simp

/-- C4 amended: what the three ZIP mutations actually guarantee about the
number of primary contexts, over any table satisfying the UNIQUE
`(user_id, zip_code)` constraint.  `add_user_zip_code` with
`is_primary = true` always leaves exactly one primary;
`add_user_zip_code` with `is_primary = false` preserves the primary count
only when the added ZIP is not the current primary's ZIP (re-adding the
primary demotes it — see the counterexample); `remove_user_zip_code`
always preserves the primary count; a successful `set_primary_zip_code`
leaves exactly one primary. -/
theorem C4_amended_primary_count (st : ZipState) (z : String)
    (lab : Option String)
    (hnd : (st.rows.map ZipRow.zip_code).Nodup) :
    primary_count (add_user_zip_code st z lab true) = 1 ∧
    ((∀ r ∈ st.rows, r.is_primary = true → r.zip_code ≠ z) →
      primary_count (add_user_zip_code st z lab false) = primary_count st) ∧
    primary_count (remove_user_zip_code st z).1 = primary_count st ∧
    ((set_primary_zip_code st z).2 = true →
      primary_count (set_primary_zip_code st z).1 = 1) := by
  have eadd_true : add_user_zip_code st z lab true =
      ⟨(st.rows.map (fun r => { r with is_primary := false })).filter
          (fun r => r.zip_code ≠ z) ++
        [⟨z, true, lab.getD ("ZIP " ++ z)⟩], z⟩ := by
    simp [add_user_zip_code]
  have eadd_false : add_user_zip_code st z lab false =
      ⟨st.rows.filter (fun r => r.zip_code ≠ z) ++
        [⟨z, false, lab.getD ("ZIP " ++ z)⟩], st.user_zip⟩ := by
    simp [add_user_zip_code]
  refine ⟨?_, fun h => ?_, ?_, fun h => ?_⟩
  · rw [eadd_true]
    simp only [primary_count, List.filter_append, filter_primary_map_demote]
    simp
  · rw [eadd_false]
    simp only [primary_count, List.filter_append,
      filter_primary_erase_zip st.rows z h]
    simp
  · unfold remove_user_zip_code
    rcases hf : st.rows.find? (fun r => r.zip_code == z) with _ | row
    · rw [hf]
    · simp only [hf]
      have hrow := List.find?_some hf
      have hmem := List.mem_of_find?_eq_some hf
      have hzz : row.zip_code = z := by simpa using hrow
      by_cases hpr : row.is_primary = true
      · rw [if_pos hpr]
      · rw [if_neg hpr]
        have h : ∀ r ∈ st.rows, r.is_primary = true → r.zip_code ≠ z := by
          intro r hr hrp hrz
          have heq : r = row :=
            List.inj_on_of_nodup_map hnd hr hmem (by rw [hrz, hzz])
          exact hpr (heq ▸ hrp)
        simp only [primary_count, filter_primary_erase_zip st.rows z h]
  · unfold set_primary_zip_code at h ⊢
    rcases hf : st.rows.find? (fun r => r.zip_code == z) with _ | row
    · rw [hf] at h; simp at h
    · simp only [hf]
      have hrow := List.find?_some hf
      have hmem := List.mem_of_find?_eq_some hf
      have hzz : row.zip_code = z := by simpa using hrow
      have hz : z ∈ st.rows.map ZipRow.zip_code :=
        hzz ▸ List.mem_map_of_mem ZipRow.zip_code hmem
      simp only [primary_count]
      rw [List.filter_map]
      have hpred : ((fun r : ZipRow => r.is_primary) ∘
          (fun r : ZipRow => { r with is_primary := r.zip_code == z })) =
          (fun r : ZipRow => r.zip_code == z) := rfl
      rw [hpred, List.length_map, ← List.countP_eq_length_filter]
      have hcnt : st.rows.countP (fun r => r.zip_code == z) =
          (st.rows.map ZipRow.zip_code).count z := by
        rw [List.count, List.countP_map]; rfl
      rw [hcnt, List.count_eq_one_of_mem hnd hz]

/-- Witness for C4 amended: adding a fresh non-primary ZIP `22222` to a
table whose single primary is `11111` keeps the primary count at one. -/
theorem C4_amended_primary_count_witness :
    primary_count
        (add_user_zip_code ⟨[⟨"11111", true, "Primary"⟩], "11111"⟩
          "22222" none false) =
      primary_count ⟨[⟨"11111", true, "Primary"⟩], "11111"⟩ :=
  (C4_amended_primary_count ⟨[⟨"11111", true, "Primary"⟩], "11111"⟩
    "22222" none (by decide)).2.1 (by decide)

/-! ## The price-checker cog (`cogs/price_checker.py`)

The per-tuple effects of `_process_result` / `_send_alert` and the database
writes they trigger.  `price_checker.py` line 311 calls
`self.db.should_send_alert(user.id, product.id, result.store_id,
alert_type, result.price, tracked.threshold, availability)` — seven
positional arguments — while `database.py` line 417 declares
`should_send_alert(self, user_id, product_id, store_id, alert_type,
current_price, threshold)` with six parameters; likewise
`price_checker.py` line 382 calls `record_alert_sent` with an extra
`availability` argument against the five-parameter signature at
`database.py` line 454.  Python raises `TypeError` at such a call before
the callee's body runs; the two call sites are embedded as
`Except.error`-returning functions. -/

/-- A scraper `PriceResult` (`scrapers/base_scraper.py` lines 9-20),
without the `url` / `raw_data` fields, which the processing path never
reads. -/
structure PriceResult where
  store_id : String
  price : Option ℚ
  shipping_available : Bool
  pickup_available : Bool
  in_stock : Bool
  product_name : Option String
  error : Option String
  deriving Repr, DecidableEq

/-- The state a single (user, product, store key, alert_type) tuple's
processing can read or write: its `alert_states` row, the prices of its
`alert_history` and `price_history` rows, the product's stored name, and
the cog's run counters (`price_checker.py` lines 37-40). -/
structure TrackState where
  alert_state : Option AlertState
  alert_history : List ℚ
  price_history : List ℚ
  product_name : Option String
  checks_completed : ℕ
  checks_failed : ℕ
  alerts_sent : ℕ
  deriving Repr, DecidableEq

/-- The zeroed cog state: fresh counters, no rows. -/
def TrackState.init : TrackState := ⟨none, [], [], none, 0, 0, 0⟩

/-- Embedding of `Database.record_alert_sent` (`database.py` lines 454-472) as its
five-parameter signature defines it: append an `alert_history` row and
`INSERT OR REPLACE` the tuple's `alert_states` row with
`(price, CURRENT_TIMESTAMP)`. -/
def record_alert_sent (st : TrackState) (price : ℚ) (now : ℤ) : TrackState :=
  { st with alert_history := st.alert_history ++ [price],
            alert_state := some ⟨price, now⟩ }

/-- The call at `price_checker.py` lines 311-319: `should_send_alert` is
given seven positional arguments (the last being `availability`) but its
signature (`database.py` line 417) takes six, so Python raises `TypeError`
at the call, before the decision logic runs. -/
def call_should_send_alert_with_availability (_st : Option AlertState)
    (_current_price : Option ℚ) (_threshold : ℚ) (_availability : Bool)
    (_now : ℤ) : Except PyError Bool :=
  Except.error PyError.typeError

/-- The call at `price_checker.py` lines 382-389: `record_alert_sent` is
given six positional arguments (the last being `availability`) but its
signature (`database.py` line 454) takes five, so Python raises
`TypeError` at the call, before any row is written. -/
def call_record_alert_sent_with_availability (_st : TrackState)
    (_price : Option ℚ) (_availability : Bool) (_now : ℤ) :
    Except PyError TrackState :=
  Except.error PyError.typeError

/-- Embedding of `PriceChecker._send_alert` (`price_checker.py` lines 333-391).
`dm_success` is the outcome of the notification-channel collaborator
(`dm_alerts.send_shipping_alert` / `send_pickup_alert`).  Shipping: return
early when `shipping_available` is false, else dispatch; pickup (Walmart
only): return early when `pickup_available` is false, else dispatch; any
other combination leaves `success = False`.  Only `if success:` does the
code bump `alerts_sent` and call `record_alert_sent` — with the extra
`availability` argument, which raises.  Returns the state together with
the escaping error, if any. -/
def send_alert (site : String) (alert_type : String) (r : PriceResult)
    (dm_success : Bool) (now : ℤ) (st : TrackState) :
    TrackState × Option PyError :=
  if alert_type == "shipping" then
    if !r.shipping_available then (st, none)
    else if dm_success then
      let st' := { st with alerts_sent := st.alerts_sent + 1 }
      match call_record_alert_sent_with_availability st' r.price
          r.shipping_available now with
      | Except.error e => (st', some e)
      | Except.ok st'' => (st'', none)
    else (st, none)
  else if alert_type == "pickup" && site == "walmart" then
    if !r.pickup_available then (st, none)
    else if dm_success then
      let st' := { st with alerts_sent := st.alerts_sent + 1 }
      match call_record_alert_sent_with_availability st' r.price
          r.pickup_available now with
      | Except.error e => (st', some e)
      | Except.ok st'' => (st'', none)
    else (st, none)
  else (st, none)

/-- Embedding of `PriceChecker._process_result` (`price_checker.py` lines 277-331).
An error-carrying result counts a failed check and stops; otherwise the
check is counted completed, a priced result is logged to `price_history`,
the product name is filled in when missing, and the alert path calls
`should_send_alert` with the extra `availability` argument — which raises
`TypeError` (returned as the escaping error).  The dead continuation after
that call (`if should_alert and result.price <= tracked.threshold`)
is still embedded faithfully. -/
def process_result (threshold : ℚ) (site : String) (alert_type : String)
    (r : PriceResult) (dm_success : Bool) (now : ℤ) (st : TrackState) :
    TrackState × Option PyError :=
  if r.error.isSome then
    ({ st with checks_failed := st.checks_failed + 1 }, none)
  else
    let st := { st with checks_completed := st.checks_completed + 1 }
    match r.price with
    | none => (st, none)
    | some p =>
      let st := { st with price_history := st.price_history ++ [p] }
      let st := if r.product_name.isSome && st.product_name.isNone then
          { st with product_name := r.product_name }
        else st
      let availability := if alert_type == "shipping" then
          r.shipping_available
        else r.pickup_available
      match call_should_send_alert_with_availability st.alert_state
          (some p) threshold availability now with
      | Except.error e => (st, some e)
      | Except.ok should =>
        if should && decide (p ≤ threshold) then
          send_alert site alert_type r dm_success now st
        else (st, none)

/-- A task's outcome as the semaphore wrapper sees it: the probe raised a
fault, or resolved to a `PriceResult`. -/
inductive TaskOutcome where
  | raised
  | completed (r : PriceResult)
  deriving Repr, DecidableEq

/-- Embedding of `PriceChecker._run_walmart_check_with_semaphore`
(`price_checker.py` lines 196-235), result-processing part: every
exception — a probe fault or an error escaping `_process_result` — is
caught by the wrapper's `except` clause, which counts one failed check; it
never aborts the run. -/
def run_task_with_semaphore (threshold : ℚ) (site : String)
    (alert_type : String) (dm_success : Bool) (now : ℤ) (st : TrackState)
    (o : TaskOutcome) : TrackState :=
  match o with
  | TaskOutcome.raised => { st with checks_failed := st.checks_failed + 1 }
  | TaskOutcome.completed r =>
    match process_result threshold site alert_type r dm_success now st with
    | (st', some _) => { st' with checks_failed := st'.checks_failed + 1 }
    | (st', none) => st'

/-- The task loop of `PriceChecker._run_price_checks`
(`price_checker.py` lines 108-123): all tasks are dispatched and awaited
with `return_exceptions=True`; each settles through the semaphore
wrapper. -/
def run_checks (threshold : ℚ) (site : String) (dm_success : Bool)
    (now : ℤ) (st : TrackState) (tasks : List (String × TaskOutcome)) :
    TrackState :=
  tasks.foldl
    (fun st t => run_task_with_semaphore threshold site t.1 dm_success now
      st t.2) st

/-- Counterexample to C2: with the availability flag for the alert_type
false (shipping alert, `shipping_available = false`, price 45 under
threshold), `_send_alert` returns before any database write: the
`AlertState` row is NOT overwritten to `ALERTED(45, now)` — the state is
left exactly as it was.  The same holds when dispatch fails
(`dm_success = false` on an available pickup). -/
theorem C2_counterexample_availability_blocks_bookkeeping :
    (send_alert "walmart" "shipping"
        ⟨"S", some 45, false, true, true, none, none⟩ true 0
        TrackState.init).1.alert_state ≠ some ⟨45, 0⟩ ∧
    send_alert "walmart" "shipping"
        ⟨"S", some 45, false, true, true, none, none⟩ true 0
        TrackState.init = (TrackState.init, none) ∧
    send_alert "walmart" "pickup"
        ⟨"S", some 45, false, true, true, none, none⟩ false 0
        TrackState.init = (TrackState.init, none) := by
  refine ⟨?_, rfl, rfl⟩
  intro h
  simp [send_alert, TrackState.init] at h

/-- C2 amended: availability and dispatch failure block the dedup
bookkeeping together with the notification, not instead of it.  When the
availability flag relevant to the alert_type is false, or when dispatch
fails, `_send_alert` leaves the entire state (AlertState, AlertHistory,
counters) unchanged and raises nothing; `record_alert_sent` is reached
only after a successful dispatch. -/
theorem C2_amended_no_write_without_dispatch (site ty : String)
    (r : PriceResult) (dm : Bool) (now : ℤ) (st : TrackState) :
    (ty = "shipping" → r.shipping_available = false →
      send_alert site ty r dm now st = (st, none)) ∧
    (ty = "pickup" → r.pickup_available = false →
      send_alert site ty r dm now st = (st, none)) ∧
    (dm = false → send_alert site ty r dm now st = (st, none)) := by
  refine ⟨fun hty hav => ?_, fun hty hav => ?_, fun hdm => ?_⟩
  · subst hty; simp [send_alert, hav]
  · subst hty
    by_cases hsite : site = "walmart"
    · subst hsite; simp [send_alert, hav]
    · simp [send_alert, hsite]
  · subst hdm
    unfold send_alert
    by_cases h1 : (ty == "shipping") = true
    · simp [h1]
    · simp only [h1]
      by_cases h2 : ((ty == "pickup") && (site == "walmart")) = true
      · simp [h2]
      · simp [Bool.not_eq_true] at h1 h2
        simp [h1, h2]

/-- Witness for C2 amended: a shipping alert with
`shipping_available = false` at price 45 leaves the fresh state
untouched. -/
theorem C2_amended_no_write_without_dispatch_witness :
    send_alert "walmart" "shipping"
        ⟨"S2", some 45, false, true, true, none, none⟩ true 0
        TrackState.init = (TrackState.init, none) :=
  (C2_amended_no_write_without_dispatch "walmart" "shipping"
    ⟨"S2", some 45, false, true, true, none, none⟩ true 0
    TrackState.init).1 rfl rfl

/-- C3 / the spec's end-to-end pickup scenario, evaluated on the code:
threshold 50, one pickup store S, no prior AlertState, observation price
45 with `pickup_available = true`.  The code counts the check completed
and logs the price, then the seven-argument `should_send_alert` call
raises `TypeError`: no pickup alert is dispatched, no `AlertHistory` row
is appended, the `AlertState` stays absent, and the wrapper additionally
counts the check as failed. -/
theorem C3_pickup_scenario_raises_type_error :
    (process_result 50 "walmart" "pickup"
        ⟨"S", some 45, false, true, true, some "P", none⟩ true 0
        TrackState.init).2 = some PyError.typeError ∧
    run_task_with_semaphore 50 "walmart" "pickup" true 0 TrackState.init
        (TaskOutcome.completed
          ⟨"S", some 45, false, true, true, some "P", none⟩) =
      { alert_state := none, alert_history := [], price_history := [45],
        product_name := some "P", checks_completed := 1,
        checks_failed := 1, alerts_sent := 0 } := by
  exact ⟨rfl, rfl⟩

/-- C6, evaluated on the code: a run of N = 2 tasks in which M = 1 probe
fails (error-carrying result) and 1 succeeds with a priced observation.
The failure does not abort the run — the second task is still processed,
`checks_completed = 1` — but `checks_failed` ends at 2, not M = 1: the
successful priced task also raises `TypeError` in the seven-argument
`should_send_alert` call and is counted as failed by the wrapper. -/
theorem C6_checks_failed_overcount :
    (run_checks 50 "walmart" true 0 TrackState.init
        [("shipping", TaskOutcome.completed
            ⟨"S", none, false, false, false, none, some "ProbeTimeout"⟩),
         ("shipping", TaskOutcome.completed
            ⟨"S", some 45, true, false, true, none, none⟩)]).checks_failed
        = 2 ∧
    (run_checks 50 "walmart" true 0 TrackState.init
        [("shipping", TaskOutcome.completed
            ⟨"S", none, false, false, false, none, some "ProbeTimeout"⟩),
         ("shipping", TaskOutcome.completed
            ⟨"S", some 45, true, false, true, none, none⟩)]).checks_completed
        = 1 := by
  exact ⟨rfl, rfl⟩

/-! ## Task expansion (`price_checker.py` lines 137-194) -/

/-- The fields of a `users` row the task expansion reads. -/
structure UserRec where
  primary_store_id : String
  zip_code : String
  deriving Repr, DecidableEq

/-- A `user_stores` (Walmart pickup store) row's relevant fields
(`database.py` lines 40-45). -/
structure StoreRow where
  store_id : String
  zip_code : String
  deriving Repr, DecidableEq

/-- Embedding of `Database.get_user_zip_codes` (`database.py` lines 526-536):
`ORDER BY is_primary DESC, created_at` over the user's rows, i.e. the
primary rows first, each group in creation order, given the stored rows in
creation order. -/
def get_user_zip_codes (rows : List ZipRow) : List ZipRow :=
  rows.filter (fun r => r.is_primary) ++ rows.filter (fun r => !r.is_primary)

/-- The `type` tag of a prepared check task
(`price_checker.py` lines 152, 163, 187). -/
inductive TaskType where
  | walmart_shipping
  | walmart_pickup
  | target_shipping
  deriving Repr, DecidableEq

/-- A prepared task's routing fields (`task_data` dict): the Target tasks
carry no `store_id` key and the pickup tasks no `zip_info`. -/
structure TaskData where
  ttype : TaskType
  store_id : Option String
  zip_code : String
  zip_label : Option String
  deriving Repr, DecidableEq

/-- Embedding of `PriceChecker._prepare_walmart_tasks` (`price_checker.py` lines
137-171): one shipping task per ZIP context (falling back to a single
synthetic context labeled "Primary" built from the user's primary ZIP
when the user has none), with `store_id` the user's primary store, then
one pickup task per user pickup store. -/
def prepare_walmart_tasks (user : UserRec) (zipRows : List ZipRow)
    (pickup_stores : List StoreRow) : List TaskData :=
  let user_zips := get_user_zip_codes zipRows
  let user_zips := if user_zips.isEmpty then
      [⟨user.zip_code, true, "Primary"⟩]
    else user_zips
  user_zips.map (fun z =>
      ⟨TaskType.walmart_shipping, some user.primary_store_id, z.zip_code,
        some z.label⟩) ++
    pickup_stores.map (fun s =>
      ⟨TaskType.walmart_pickup, some s.store_id, s.zip_code, none⟩)

/-- Embedding of `PriceChecker._prepare_target_tasks` (`price_checker.py` lines
173-194): one shipping task per ZIP context with the same fallback, and
nothing else — no pickup expansion for Target. -/
def prepare_target_tasks (user : UserRec) (zipRows : List ZipRow) :
    List TaskData :=
  let user_zips := get_user_zip_codes zipRows
  let user_zips := if user_zips.isEmpty then
      [⟨user.zip_code, true, "Primary"⟩]
    else user_zips
  user_zips.map (fun z =>
    ⟨TaskType.target_shipping, none, z.zip_code, some z.label⟩)

/-- C8: task expansion.  With no configured contexts, the Walmart
expansion is a single synthetic "Primary" shipping task from the user's
ZIP followed by the pickup tasks; with configured contexts there is
exactly one shipping task per context, whose ZIPs are the resolver's
(primary first: when the table has a unique primary row, the first task
is built from it); the pickup tasks are exactly one per user pickup
store, independent of the ZIP expansion; and the Target expansion
produces only shipping tasks, one per context. -/
theorem C8_task_expansion (user : UserRec) (zipRows : List ZipRow)
    (stores : List StoreRow) :
    (zipRows = [] →
      prepare_walmart_tasks user zipRows stores =
        ⟨TaskType.walmart_shipping, some user.primary_store_id,
            user.zip_code, some "Primary"⟩ ::
          stores.map (fun s =>
            ⟨TaskType.walmart_pickup, some s.store_id, s.zip_code, none⟩)) ∧
    (zipRows ≠ [] →
      ((prepare_walmart_tasks user zipRows stores).filter
          (fun t => t.ttype = TaskType.walmart_shipping)).map
          (fun t => t.zip_code) =
        (get_user_zip_codes zipRows).map (fun r => r.zip_code)) ∧
    (zipRows ≠ [] →
      ((prepare_walmart_tasks user zipRows stores).filter
          (fun t => t.ttype = TaskType.walmart_shipping)).length =
        zipRows.length) ∧
    ((prepare_walmart_tasks user zipRows stores).filter
        (fun t => t.ttype = TaskType.walmart_pickup) =
      stores.map (fun s =>
        ⟨TaskType.walmart_pickup, some s.store_id, s.zip_code, none⟩)) ∧
    (∀ pr, zipRows.filter (fun r => r.is_primary) = [pr] →
      (prepare_walmart_tasks user zipRows stores).head? =
        some ⟨TaskType.walmart_shipping, some user.primary_store_id,
          pr.zip_code, some pr.label⟩) ∧
    ((prepare_target_tasks user zipRows).filter
        (fun t => t.ttype = TaskType.walmart_pickup) = []) ∧
    (zipRows ≠ [] →
      (prepare_target_tasks user zipRows).length = zipRows.length) := by
  have hlen : (get_user_zip_codes zipRows).length = zipRows.length := by
    have : ∀ l : List ZipRow,
        (l.filter (fun r => r.is_primary)).length +
          (l.filter (fun r => !r.is_primary)).length = l.length := by
      intro l
      induction l with
      | nil => rfl
      | cons r l ih =>
        cases hpr : r.is_primary <;>
          simp [List.filter_cons, hpr, ← ih] <;> omega
    simp [get_user_zip_codes, this zipRows]
  have hnil : get_user_zip_codes zipRows = [] → zipRows = [] := by
    intro h0
    rw [get_user_zip_codes, List.append_eq_nil] at h0
    cases zipRows with
    | nil => rfl
    | cons r l =>
      exfalso
      cases hpr : r.is_primary
      · have := List.filter_eq_nil_iff.mp h0.2 r (List.mem_cons_self r l)
        simp [hpr] at this
      · have := List.filter_eq_nil_iff.mp h0.1 r (List.mem_cons_self r l)
        simp [hpr] at this
  have hne : zipRows ≠ [] → (get_user_zip_codes zipRows).isEmpty = false := by
    intro h
    cases h' : (get_user_zip_codes zipRows).isEmpty
    · rfl
    · exact absurd (hnil (List.isEmpty_iff.mp h')) h
  refine ⟨fun h => ?_, fun h => ?_, fun h => ?_, ?_, fun pr hpr => ?_,
    ?_, fun h => ?_⟩
  · subst h; simp [prepare_walmart_tasks, get_user_zip_codes]
  · simp [prepare_walmart_tasks, hne h, List.filter_append,
      List.filter_map, Function.comp_def]
  · simp [prepare_walmart_tasks, hne h, List.filter_append,
      List.filter_map, Function.comp_def, hlen]
  · by_cases h : zipRows = []
    · subst h
      simp [prepare_walmart_tasks, get_user_zip_codes, List.filter_map,
        Function.comp_def]
    · simp [prepare_walmart_tasks, hne h, List.filter_append,
        List.filter_map, Function.comp_def]
  · have : get_user_zip_codes zipRows =
        pr :: zipRows.filter (fun r => !r.is_primary) := by
      simp [get_user_zip_codes, hpr]
    simp [prepare_walmart_tasks, this]
  · by_cases h : zipRows = []
    · subst h
      simp [prepare_target_tasks, get_user_zip_codes, List.filter_map,
        Function.comp_def]
    · simp [prepare_target_tasks, hne h, List.filter_map,
        Function.comp_def]
  · simp [prepare_target_tasks, hne h, hlen]

/-- Witness for C8: a user with one primary ZIP `11111`, one extra ZIP
`22222` and one pickup store yields two shipping tasks (primary first)
and one pickup task. -/
theorem C8_task_expansion_witness :
    (prepare_walmart_tasks ⟨"st1", "11111"⟩
        [⟨"22222", false, "Work"⟩, ⟨"11111", true, "Primary"⟩]
        [⟨"pk1", "33333"⟩]).head? =
      some ⟨TaskType.walmart_shipping, some "st1", "11111",
        some "Primary"⟩ :=
  (C8_task_expansion ⟨"st1", "11111"⟩
      [⟨"22222", false, "Work"⟩, ⟨"11111", true, "Primary"⟩]
      [⟨"pk1", "33333"⟩]).2.2.2.2.1
    ⟨"11111", true, "Primary"⟩ (by decide)

/-! ## Run scheduling (`price_checker.py` lines 55-70 and 393-403)

The asyncio event loop interleaves coroutines at `await` points;
`_run_price_checks` awaits, so a scheduled `check_prices` tick can fire
while a manually forced run (`force_price_check`) is still in flight.
The guard protocol is the state machine below: `is_running` is the shared
flag; `sched_active` / `force_active` count runs started by the timer /
the `forceprice` command that have not yet finished. -/

/-- The scheduler's observable state. -/
structure SchedState where
  is_running : Bool
  sched_active : ℕ
  force_active : ℕ
  deriving Repr, DecidableEq

/-- One event of the guard protocol, as the code implements it.
`tick_skip`/`tick_start`/`tick_end` are `check_prices`
(`price_checker.py` lines 55-70): a tick returns at once when
`is_running`, otherwise sets `is_running` and runs, and the `finally`
clears `is_running`.  `force_skip`/`force_start`/`force_end` are
`force_price_check` (lines 393-403): refused while `is_running`,
otherwise it awaits `_run_price_checks` directly — without ever setting
`is_running`. -/
inductive SchedStep : SchedState → SchedState → Prop where
  | tick_skip (s : SchedState) : s.is_running = true → SchedStep s s
  | tick_start (s : SchedState) : s.is_running = false →
      SchedStep s ⟨true, s.sched_active + 1, s.force_active⟩
  | tick_end (s : SchedState) (n : ℕ) : s.sched_active = n + 1 →
      SchedStep s ⟨false, n, s.force_active⟩
  | force_skip (s : SchedState) : s.is_running = true → SchedStep s s
  | force_start (s : SchedState) : s.is_running = false →
      SchedStep s ⟨s.is_running, s.sched_active, s.force_active + 1⟩
  | force_end (s : SchedState) (n : ℕ) : s.force_active = n + 1 →
      SchedStep s ⟨s.is_running, s.sched_active, n⟩

/-- States the scheduler can reach from cog start-up (no run active,
flag clear). -/
inductive SchedReachable : SchedState → Prop where
  | init : SchedReachable ⟨false, 0, 0⟩
  | step {s s' : SchedState} : SchedReachable s → SchedStep s s' →
      SchedReachable s'

/-- Counterexample to C7: the scheduler reaches a state with TWO runs
active at once.  `force_price_check` starts a run without setting
`is_running`, so a scheduled tick during the forced run sees
`is_running = false` and starts a second, overlapping run. -/
theorem C7_counterexample_overlapping_runs :
    SchedReachable ⟨true, 1, 1⟩ ∧
    (SchedState.mk true 1 1).sched_active +
      (SchedState.mk true 1 1).force_active = 2 :=
  ⟨SchedReachable.step
      (SchedReachable.step SchedReachable.init
        (SchedStep.force_start ⟨false, 0, 0⟩ rfl))
      (SchedStep.tick_start ⟨false, 0, 1⟩ rfl),
    rfl⟩

/-- C7 amended: the `is_running` guard serialises the scheduled ticks
among themselves — at most one scheduled run is ever active, and the flag
is set exactly while one is — and an attempt (tick or force) while
`is_running` is a state-preserving no-op; but a forced run does not set
`is_running`, so a tick or a second force during a forced run can start
an overlapping run (see the counterexample). -/
theorem C7_amended_scheduled_runs_serialised (s : SchedState)
    (hs : SchedReachable s) :
    (s.sched_active ≤ 1 ∧ (s.is_running = false → s.sched_active = 0)) ∧
    (∀ s', s.is_running = true → SchedStep s s' →
      s' = s ∨ s'.sched_active + s'.force_active <
        s.sched_active + s.force_active) := by
  constructor
  · induction hs with
    | init => exact ⟨Nat.zero_le 1, fun _ => rfl⟩
    | step hr hstep ih =>
      obtain ⟨ih1, ih2⟩ := ih
      cases hstep with
      | tick_skip h => exact ⟨ih1, ih2⟩
      | tick_start h =>
        have h0 := ih2 h
        exact ⟨by simp; omega, by simp⟩
      | tick_end n h =>
        exact ⟨by simp; omega, fun _ => by simp; omega⟩
      | force_skip h => exact ⟨ih1, ih2⟩
      | force_start h => exact ⟨ih1, ih2⟩
      | force_end n h => exact ⟨ih1, ih2⟩
  · intro s' hrun hstep
    cases hstep with
    | tick_skip h => exact Or.inl rfl
    | tick_start h => rw [hrun] at h; cases h
    | tick_end n h => right; simp; omega
    | force_skip h => exact Or.inl rfl
    | force_start h => rw [hrun] at h; cases h
    | force_end n h => right; simp; omega

/-- Witness for C7 amended: at cog start-up no scheduled run is active. -/
theorem C7_amended_scheduled_runs_serialised_witness :
    (SchedState.mk false 0 0).sched_active ≤ 1 ∧
    (SchedState.mk false 0 0).sched_active = 0 :=
  ⟨(C7_amended_scheduled_runs_serialised ⟨false, 0, 0⟩
      SchedReachable.init).1.1,
   (C7_amended_scheduled_runs_serialised ⟨false, 0, 0⟩
      SchedReachable.init).1.2 rfl⟩

/-! ## Concurrency gates (`price_checker.py` lines 29-35, 196-275)

`__init__` builds one `asyncio.Semaphore` per retailer
(`walmart_semaphore`, `target_semaphore`), with independently configured
capacities; each check runs its probe inside `async with` on its
retailer's semaphore.  A semaphore of capacity `max` admits an acquire
only while fewer than `max` holders are active, suspending the caller
otherwise, and each release frees one slot. -/

/-- In-flight probe counts, one per retailer gate. -/
structure GateState where
  walmart_active : ℕ
  target_active : ℕ
  deriving Repr, DecidableEq

/-- Gate events: entering/leaving the `async with` block of
`_run_walmart_check_with_semaphore` (`price_checker.py` line 198) or
`_run_target_check_with_semaphore` (line 245), under the semaphore
capacities `maxW`, `maxT`. -/
inductive GateStep (maxW maxT : ℕ) : GateState → GateState → Prop where
  | acquire_walmart (s : GateState) : s.walmart_active < maxW →
      GateStep maxW maxT s ⟨s.walmart_active + 1, s.target_active⟩
  | release_walmart (s : GateState) (n : ℕ) : s.walmart_active = n + 1 →
      GateStep maxW maxT s ⟨n, s.target_active⟩
  | acquire_target (s : GateState) : s.target_active < maxT →
      GateStep maxW maxT s ⟨s.walmart_active, s.target_active + 1⟩
  | release_target (s : GateState) (n : ℕ) : s.target_active = n + 1 →
      GateStep maxW maxT s ⟨s.walmart_active, n⟩

/-- Gate states reachable from the start of a run (no probe in
flight). -/
inductive GateReachable (maxW maxT : ℕ) : GateState → Prop where
  | init : GateReachable maxW maxT ⟨0, 0⟩
  | step {s s' : GateState} : GateReachable maxW maxT s →
      GateStep maxW maxT s s' → GateReachable maxW maxT s'

/-- C9: per-retailer concurrency bound.  In every reachable gate state the
number of in-flight Walmart probes is at most the Walmart semaphore's
capacity and the number of in-flight Target probes at most the Target
semaphore's — the two gates are independent. -/
theorem C9_gate_concurrency_bound (maxW maxT : ℕ) (s : GateState)
    (hs : GateReachable maxW maxT s) :
    s.walmart_active ≤ maxW ∧ s.target_active ≤ maxT := by
  induction hs with
  | init => exact ⟨Nat.zero_le _, Nat.zero_le _⟩
  | step hr hstep ih =>
    obtain ⟨ih1, ih2⟩ := ih
    cases hstep with
    | acquire_walmart h => exact ⟨h, ih2⟩
    | release_walmart n h => exact ⟨by simp; omega, ih2⟩
    | acquire_target h => exact ⟨ih1, h⟩
    | release_target n h => exact ⟨ih1, by simp; omega⟩

/-- Witness for C9: with capacities 10 and 2, the state after one Walmart
acquire respects both bounds. -/
theorem C9_gate_concurrency_bound_witness :
    (GateState.mk 1 0).walmart_active ≤ 10 ∧
    (GateState.mk 1 0).target_active ≤ 2 :=
  C9_gate_concurrency_bound 10 2 ⟨1, 0⟩
    (GateReachable.step GateReachable.init
      (GateStep.acquire_walmart ⟨0, 0⟩ (by decide)))

end PriceTracker
